import Mathlib

/-!
Verification of the Lale excerpt: the schema-wrapped SMOTEENN resampling
adapter (src/lale/lib/imblearn/smoteenn.py) and the fairness test suite
(src/test/test_aif360.py).

Python values that can appear as hyperparameter arguments are embedded as
the inductive type PyValue.  The adapter constructor, the declarative
hyperparameter schema, and the test-suite acceptance predicates are
translated from the source.  Components of the repository that are only
called by the excerpt (the shared schema-validation engine, the
protected-attributes encoder, the stratified splitter, and the
disparate-impact scorer) are modelled from the specification text, each
marked by a doc comment beginning with "Modelled from the spec".
-/

/-- Embedding of the Python values that can be passed as hyperparameter
arguments to the adapters of this repository.  Dictionary contents and the
internals of callables, operators and random-state objects are opaque to
the schema layer, so they are abstracted to identifying data. -/
inductive PyValue where
  | none
  | bool (b : Bool)
  | int (n : Int)
  | num (q : ℚ)
  | str (s : String)
  | dict (keys : List String)
  | callable (tag : String)
  | operator (tag : String)
  | randomState (seed : Int)
  deriving DecidableEq

/-- One shape variant appearing inside an "anyOf" of the hyperparameter
schema of src/lale/lib/imblearn/smoteenn.py: a JSON type tag, an enumerated
literal set, or one of the laleType escape hatches. -/
inductive Shape where
  | typeNumber
  | typeInteger
  | typeObject
  | enumOf (vals : List PyValue)
  | laleAny
  | laleCallable
  | laleOperator
  | laleRandomState
  deriving DecidableEq

/-- Declarative schema of a single hyperparameter: the union of accepted
shapes and the declared default (absent for the operator property). -/
structure HyperparamSchema where
  shapes : List Shape
  default : Option PyValue
  deriving DecidableEq

/-- The "operator" property of the hyperparameter schema
(src/lale/lib/imblearn/smoteenn.py lines 65-71). -/
def operatorSchema : HyperparamSchema :=
  ⟨[Shape.laleOperator], Option.none⟩

/-- The "sampling_strategy" property of the hyperparameter schema
(src/lale/lib/imblearn/smoteenn.py lines 72-122): number, one of five
string literals, dict, or callable; default "auto". -/
def samplingStrategySchema : HyperparamSchema :=
  ⟨[Shape.typeNumber,
    Shape.enumOf [PyValue.str "minority", PyValue.str "not minority",
                  PyValue.str "not majority", PyValue.str "all",
                  PyValue.str "auto"],
    Shape.typeObject,
    Shape.laleCallable],
   some (PyValue.str "auto")⟩

/-- The "random_state" property of the hyperparameter schema
(src/lale/lib/imblearn/smoteenn.py lines 123-140): None, integer, or a
RandomState instance; default None. -/
def randomStateSchema : HyperparamSchema :=
  ⟨[Shape.enumOf [PyValue.none], Shape.typeInteger, Shape.laleRandomState],
   some PyValue.none⟩

/-- The "smote" property of the hyperparameter schema
(src/lale/lib/imblearn/smoteenn.py lines 141-146): anyOf Any or None;
default None. -/
def smoteSchema : HyperparamSchema :=
  ⟨[Shape.laleAny, Shape.enumOf [PyValue.none]], some PyValue.none⟩

/-- The "enn" property of the hyperparameter schema
(src/lale/lib/imblearn/smoteenn.py lines 147-152): anyOf Any or None;
default None. -/
def ennSchema : HyperparamSchema :=
  ⟨[Shape.laleAny, Shape.enumOf [PyValue.none]], some PyValue.none⟩

/-- The four named hyperparameter properties of the SMOTEENN schema, in
declaration order (the operator property is checked separately by the
implementation constructor). -/
def smoteennSchemaEntries : List (String × HyperparamSchema) :=
  [("sampling_strategy", samplingStrategySchema),
   ("random_state", randomStateSchema),
   ("smote", smoteSchema),
   ("enn", ennSchema)]

/-- Modelled from the spec: the shared schema-validation engine behind
lale.operators.make_operator is not part of the excerpt.  Per spec section
4.2 it checks a proposed value against one declared shape: a type tag
matches by the value's runtime type, an enumerated literal set by
membership, and the laleType escape hatches match callables, operators,
random-state instances, or (for Any) every value. -/
def matchesShape : Shape → PyValue → Bool
  | Shape.laleAny, _ => true
  | Shape.typeNumber, PyValue.int _ => true
  | Shape.typeNumber, PyValue.num _ => true
  | Shape.typeNumber, _ => false
  | Shape.typeInteger, PyValue.int _ => true
  | Shape.typeInteger, _ => false
  | Shape.typeObject, PyValue.dict _ => true
  | Shape.typeObject, _ => false
  | Shape.enumOf vals, v => vals.contains v
  | Shape.laleCallable, PyValue.callable _ => true
  | Shape.laleCallable, _ => false
  | Shape.laleOperator, PyValue.operator _ => true
  | Shape.laleOperator, _ => false
  | Shape.laleRandomState, PyValue.randomState _ => true
  | Shape.laleRandomState, _ => false

/-- A configuration error raised by schema validation: it names the
offending hyperparameter and its expected shape set (spec section 4.2). -/
structure ConfigError where
  key : String
  expected : List Shape
  deriving DecidableEq

/-- Modelled from the spec: validation of one hyperparameter value against
its Schema Descriptor entry.  The value is accepted when it matches some
declared shape and otherwise rejected with a configuration error naming
the offending key and the expected shape set (spec section 4.2). -/
def validateValue (key : String) (hs : HyperparamSchema) (v : PyValue) :
    Except ConfigError PyValue :=
  if hs.shapes.any (fun s => matchesShape s v) then Except.ok v
  else Except.error ⟨key, hs.shapes⟩

/-- The hyperparameter record stored by the constructor as self._hyperparams
(src/lale/lib/imblearn/smoteenn.py lines 45-50). -/
structure Hyperparams where
  sampling_strategy : PyValue
  random_state : PyValue
  smote : PyValue
  enn : PyValue
  deriving DecidableEq

/-- The externally-implemented imblearn.combine.SMOTEENN algorithm object
(imported as OrigModel).  Its behaviour is external to the repository; the
embedding records exactly the constructor arguments it receives. -/
structure OrigModel where
  sampling_strategy : PyValue
  random_state : PyValue
  smote : PyValue
  enn : PyValue
  deriving DecidableEq

/-- The state of a constructed _SMOTEENNImpl: the base-resampler fields set
by super().__init__ (operator and resampler) plus self._hyperparams
(src/lale/lib/imblearn/smoteenn.py lines 33-55). -/
structure SMOTEENNImpl where
  operator : PyValue
  resampler : OrigModel
  hyperparams : Hyperparams
  deriving DecidableEq

/-- The declared default of the sampling_strategy argument of
_SMOTEENNImpl.__init__ (src/lale/lib/imblearn/smoteenn.py line 37). -/
def samplingStrategyDefaultArg : PyValue := PyValue.str "auto"

/-- The declared default of the random_state argument of
_SMOTEENNImpl.__init__ (src/lale/lib/imblearn/smoteenn.py line 38). -/
def randomStateDefaultArg : PyValue := PyValue.none

/-- The declared default of the smote argument of _SMOTEENNImpl.__init__
(src/lale/lib/imblearn/smoteenn.py line 39). -/
def smoteDefaultArg : PyValue := PyValue.none

/-- The declared default of the enn argument of _SMOTEENNImpl.__init__
(src/lale/lib/imblearn/smoteenn.py line 40). -/
def ennDefaultArg : PyValue := PyValue.none

/-- _SMOTEENNImpl.__init__ (src/lale/lib/imblearn/smoteenn.py lines 34-55):
raises ValueError "Operator is a required argument." when operator is None;
otherwise stores the four hyperparameters, builds the external OrigModel
from exactly those values, and initializes the base resampler with the
operator and the built instance. -/
def SMOTEENNImpl.init (operator sampling_strategy random_state smote enn :
    PyValue) : Except String SMOTEENNImpl :=
  if operator = PyValue.none then
    Except.error "Operator is a required argument."
  else
    Except.ok ⟨operator,
               ⟨sampling_strategy, random_state, smote, enn⟩,
               ⟨sampling_strategy, random_state, smote, enn⟩⟩

/-- _SMOTEENNImpl.__init__ invoked with every optional argument omitted, so
each takes its declared default (src/lale/lib/imblearn/smoteenn.py lines
34-41). -/
def SMOTEENNImpl.initDefaults (operator : PyValue) :
    Except String SMOTEENNImpl :=
  SMOTEENNImpl.init operator samplingStrategyDefaultArg randomStateDefaultArg
    smoteDefaultArg ennDefaultArg

/-- Mutable state touched by _SMOTEENNImpl.__init__, for reasoning about
the order of effects: whether self._hyperparams has been assigned, whether
the external OrigModel instance has been built, and whether the base
constructor has run. -/
structure InitState where
  hyperparamsStored : Option Hyperparams
  resamplerBuilt : Option OrigModel
  baseInitialized : Bool
  deriving DecidableEq

/-- The state of a _SMOTEENNImpl object before __init__ executes any
statement: nothing stored, nothing built. -/
def initialInitState : InitState := ⟨Option.none, Option.none, false⟩

/-- Step-by-step embedding of _SMOTEENNImpl.__init__
(src/lale/lib/imblearn/smoteenn.py lines 34-55): the None check on operator
executes first; on the error path the function returns the state unchanged
from initialInitState together with the error message, and only on the
success path are the hyperparameters stored, the OrigModel built, and the
base constructor run. -/
def initTrace (operator sampling_strategy random_state smote enn : PyValue) :
    InitState × Option String :=
  if operator = PyValue.none then
    (initialInitState, some "Operator is a required argument.")
  else
    (⟨some ⟨sampling_strategy, random_state, smote, enn⟩,
      some ⟨sampling_strategy, random_state, smote, enn⟩,
      true⟩,
     Option.none)

theorem initTrace_agrees_with_init
    (op ss rs sm en : PyValue) :
    (initTrace op ss rs sm en).2 = Option.none ↔
      ∃ impl, SMOTEENNImpl.init op ss rs sm en = Except.ok impl := by
  unfold initTrace SMOTEENNImpl.init
  by_cases h : op = PyValue.none
  · simp [h]
  · simp [h]

/-- Claim C1: constructing the SMOTEENN adapter with the nested operator
argument absent (None) raises the configuration error "Operator is a
required argument.", and whenever a nested operator is supplied no such
error is raised. -/
theorem C1_operator_required (op ss rs sm en : PyValue) :
    SMOTEENNImpl.init PyValue.none ss rs sm en =
      Except.error "Operator is a required argument." ∧
    (op ≠ PyValue.none →
      ∃ impl, SMOTEENNImpl.init op ss rs sm en = Except.ok impl) := by
  constructor
  · rfl
  · intro h
    unfold SMOTEENNImpl.init
    rw [if_neg h]
    exact ⟨_, rfl⟩

theorem C1_operator_required_witness :
    (PyValue.operator "pipeline" ≠ PyValue.none) ∧
    (SMOTEENNImpl.init PyValue.none (PyValue.str "auto") PyValue.none
        PyValue.none PyValue.none =
      Except.error "Operator is a required argument." ∧
    (PyValue.operator "pipeline" ≠ PyValue.none →
      ∃ impl, SMOTEENNImpl.init (PyValue.operator "pipeline")
        (PyValue.str "auto") PyValue.none PyValue.none PyValue.none =
        Except.ok impl)) :=
  ⟨by decide,
   C1_operator_required (PyValue.operator "pipeline") (PyValue.str "auto")
     PyValue.none PyValue.none PyValue.none⟩

/-- Claim C2: a successful construction builds the wrapped external
SMOTEENN instance at construction time with exactly the four supplied
hyperparameters sampling_strategy, random_state, smote and enn passed
through verbatim, and a construction that omits the optional
hyperparameters passes the defaults "auto", None, None, None, leaving the
external library to apply its own defaults for the sub-algorithms. -/
theorem C2_hyperparams_passthrough (op ss rs sm en : PyValue)
    (h : op ≠ PyValue.none) :
    (∃ impl, SMOTEENNImpl.init op ss rs sm en = Except.ok impl ∧
       impl.resampler = ⟨ss, rs, sm, en⟩ ∧
       impl.hyperparams = ⟨ss, rs, sm, en⟩) ∧
    (∃ impl, SMOTEENNImpl.initDefaults op = Except.ok impl ∧
       impl.resampler = ⟨PyValue.str "auto", PyValue.none, PyValue.none,
                         PyValue.none⟩) := by
  unfold SMOTEENNImpl.initDefaults SMOTEENNImpl.init
  simp only [if_neg h]
  exact ⟨⟨_, rfl, rfl, rfl⟩, ⟨_, rfl, rfl⟩⟩

theorem C2_hyperparams_passthrough_witness :
    (PyValue.operator "lr" ≠ PyValue.none) ∧
    ((∃ impl, SMOTEENNImpl.init (PyValue.operator "lr") (PyValue.num (1/2))
        (PyValue.int 42) (PyValue.callable "smote0") (PyValue.callable "enn0")
        = Except.ok impl ∧
       impl.resampler = ⟨PyValue.num (1/2), PyValue.int 42,
                         PyValue.callable "smote0", PyValue.callable "enn0"⟩ ∧
       impl.hyperparams = ⟨PyValue.num (1/2), PyValue.int 42,
                           PyValue.callable "smote0",
                           PyValue.callable "enn0"⟩) ∧
    (∃ impl, SMOTEENNImpl.initDefaults (PyValue.operator "lr") =
        Except.ok impl ∧
       impl.resampler = ⟨PyValue.str "auto", PyValue.none, PyValue.none,
                         PyValue.none⟩)) :=
  ⟨by decide,
   C2_hyperparams_passthrough (PyValue.operator "lr") (PyValue.num (1/2))
     (PyValue.int 42) (PyValue.callable "smote0") (PyValue.callable "enn0")
     (by decide)⟩

/-- Claim C10: constructing the adapter with operator=None raises the error
before any hyperparameter state is stored and before the external
resampling instance is built: the error path leaves the object state
exactly at its initial value, so construction is atomic on failure. -/
theorem C10_error_path_atomic (ss rs sm en : PyValue) :
    initTrace PyValue.none ss rs sm en =
      (initialInitState, some "Operator is a required argument.") ∧
    (initTrace PyValue.none ss rs sm en).1.hyperparamsStored = Option.none ∧
    (initTrace PyValue.none ss rs sm en).1.resamplerBuilt = Option.none :=
  ⟨rfl, rfl, rfl⟩

/-- Modelled from the spec: the validation pass that the shared engine runs
over all supplied hyperparameters before the implementation constructor is
invoked (spec sections 2 and 4.2), specialized to the four named properties
of the SMOTEENN schema, checked in declaration order. -/
def validateAll (hp : Hyperparams) : Except ConfigError Hyperparams :=
  match validateValue "sampling_strategy" samplingStrategySchema
      hp.sampling_strategy with
  | Except.error e => Except.error e
  | Except.ok _ =>
    match validateValue "random_state" randomStateSchema hp.random_state with
    | Except.error e => Except.error e
    | Except.ok _ =>
      match validateValue "smote" smoteSchema hp.smote with
      | Except.error e => Except.error e
      | Except.ok _ =>
        match validateValue "enn" ennSchema hp.enn with
        | Except.error e => Except.error e
        | Except.ok _ => Except.ok hp

/-- Outcome of constructing the wrapped SMOTEENN operator: success, a
configuration error from schema validation, or the ValueError raised by the
implementation constructor for a missing operator. -/
inductive ConstructResult where
  | ok (impl : SMOTEENNImpl)
  | configError (err : ConfigError)
  | valueError (msg : String)
  deriving DecidableEq

/-- Modelled from the spec: constructing the operator returned by
lale.operators.make_operator (src/lale/lib/imblearn/smoteenn.py line 189)
first validates the supplied hyperparameters against the Schema Descriptor
and then invokes _SMOTEENNImpl.__init__ (spec section 2: construct ->
validate -> build the wrapped instance). -/
def SMOTEENN_construct (op : PyValue) (hp : Hyperparams) : ConstructResult :=
  match validateAll hp with
  | Except.error e => ConstructResult.configError e
  | Except.ok _ =>
    match SMOTEENNImpl.init op hp.sampling_strategy hp.random_state hp.smote
        hp.enn with
    | Except.error m => ConstructResult.valueError m
    | Except.ok impl => ConstructResult.ok impl

/-- The value a Hyperparams record supplies for a given schema key. -/
def hpValue (hp : Hyperparams) : String → PyValue
  | "sampling_strategy" => hp.sampling_strategy
  | "random_state" => hp.random_state
  | "smote" => hp.smote
  | "enn" => hp.enn
  | _ => PyValue.none

theorem validateValue_ok_iff (key : String) (hs : HyperparamSchema)
    (v : PyValue) :
    validateValue key hs v = Except.ok v ↔
      ∃ s ∈ hs.shapes, matchesShape s v = true := by
  unfold validateValue
  by_cases h : hs.shapes.any (fun s => matchesShape s v) = true
  · rw [if_pos h]
    simp only [true_iff]
    exact (List.any_eq_true).mp h
  · rw [if_neg h]
    constructor
    · intro hcontra
      exact absurd hcontra (by simp)
    · intro hex
      exact absurd ((List.any_eq_true).mpr hex) h

theorem validateValue_error_iff (key : String) (hs : HyperparamSchema)
    (v : PyValue) :
    validateValue key hs v = Except.error ⟨key, hs.shapes⟩ ↔
      ∀ s ∈ hs.shapes, matchesShape s v = false := by
  unfold validateValue
  by_cases h : hs.shapes.any (fun s => matchesShape s v) = true
  · rw [if_pos h]
    constructor
    · intro hcontra
      exact absurd hcontra (by simp)
    · intro hall
      rcases (List.any_eq_true).mp h with ⟨s, hmem, hs1⟩
      rw [hall s hmem] at hs1
      cases hs1
  · rw [if_neg h]
    simp only [true_iff]
    intro s hmem
    rcases Bool.eq_false_or_eq_true (matchesShape s v) with ht | hf
    · exact absurd ((List.any_eq_true).mpr ⟨s, hmem, ht⟩) h
    · exact hf

theorem validateValue_error_elim (key : String) (hs : HyperparamSchema)
    (v : PyValue) (e : ConfigError)
    (h : validateValue key hs v = Except.error e) :
    e = ⟨key, hs.shapes⟩ ∧ ∀ s ∈ hs.shapes, matchesShape s v = false := by
  unfold validateValue at h
  by_cases hc : hs.shapes.any (fun s => matchesShape s v) = true
  · rw [if_pos hc] at h
    cases h
  · rw [if_neg hc] at h
    injection h with h1
    refine ⟨h1.symm, ?_⟩
    intro s hmem
    rcases Bool.eq_false_or_eq_true (matchesShape s v) with ht | hf
    · exact absurd ((List.any_eq_true).mpr ⟨s, hmem, ht⟩) hc
    · exact hf

theorem validateAll_error_elim (hp : Hyperparams) (e : ConfigError)
    (h : validateAll hp = Except.error e) :
    ∃ hs, (e.key, hs) ∈ smoteennSchemaEntries ∧ hs.shapes = e.expected ∧
      ∀ s ∈ e.expected, matchesShape s (hpValue hp e.key) = false := by
  unfold validateAll at h
  cases h1 : validateValue "sampling_strategy" samplingStrategySchema
      hp.sampling_strategy with
  | error e1 =>
    rw [h1] at h
    injection h with he
    subst he
    rcases validateValue_error_elim _ _ _ _ h1 with ⟨he1, hall⟩
    subst he1
    exact ⟨samplingStrategySchema, by decide, rfl, hall⟩
  | ok v1 =>
    rw [h1] at h
    cases h2 : validateValue "random_state" randomStateSchema
        hp.random_state with
    | error e2 =>
      rw [h2] at h
      injection h with he
      subst he
      rcases validateValue_error_elim _ _ _ _ h2 with ⟨he2, hall⟩
      subst he2
      exact ⟨randomStateSchema, by decide, rfl, hall⟩
    | ok v2 =>
      rw [h2] at h
      cases h3 : validateValue "smote" smoteSchema hp.smote with
      | error e3 =>
        rw [h3] at h
        injection h with he
        subst he
        rcases validateValue_error_elim _ _ _ _ h3 with ⟨he3, hall⟩
        subst he3
        exact ⟨smoteSchema, by decide, rfl, hall⟩
      | ok v3 =>
        rw [h3] at h
        cases h4 : validateValue "enn" ennSchema hp.enn with
        | error e4 =>
          rw [h4] at h
          injection h with he
          subst he
          rcases validateValue_error_elim _ _ _ _ h4 with ⟨he4, hall⟩
          subst he4
          exact ⟨ennSchema, by decide, rfl, hall⟩
        | ok v4 =>
          rw [h4] at h
          cases h

theorem validateAll_ok_eq (hp w : Hyperparams)
    (h : validateAll hp = Except.ok w) : w = hp := by
  unfold validateAll at h
  cases h1 : validateValue "sampling_strategy" samplingStrategySchema
      hp.sampling_strategy with
  | error e1 => rw [h1] at h; cases h
  | ok v1 =>
    rw [h1] at h
    cases h2 : validateValue "random_state" randomStateSchema
        hp.random_state with
    | error e2 => rw [h2] at h; cases h
    | ok v2 =>
      rw [h2] at h
      cases h3 : validateValue "smote" smoteSchema hp.smote with
      | error e3 => rw [h3] at h; cases h
      | ok v3 =>
        rw [h3] at h
        cases h4 : validateValue "enn" ennSchema hp.enn with
        | error e4 => rw [h4] at h; cases h
        | ok v4 =>
          rw [h4] at h
          injection h with h5
          exact h5.symm

theorem validateValue_not_error (key : String) (hs : HyperparamSchema)
    (v : PyValue) (hok : ∃ s ∈ hs.shapes, matchesShape s v = true) :
    validateValue key hs v = Except.ok v :=
  (validateValue_ok_iff key hs v).mpr hok

theorem validateAll_ok_of_all (hp : Hyperparams)
    (h1 : ∃ s ∈ samplingStrategySchema.shapes,
      matchesShape s hp.sampling_strategy = true)
    (h2 : ∃ s ∈ randomStateSchema.shapes,
      matchesShape s hp.random_state = true)
    (h3 : ∃ s ∈ smoteSchema.shapes, matchesShape s hp.smote = true)
    (h4 : ∃ s ∈ ennSchema.shapes, matchesShape s hp.enn = true) :
    validateAll hp = Except.ok hp := by
  unfold validateAll
  rw [validateValue_not_error _ _ _ h1, validateValue_not_error _ _ _ h2,
      validateValue_not_error _ _ _ h3, validateValue_not_error _ _ _ h4]

/-- Claim C3: for each hyperparameter of the SMOTEENN schema, a proposed
value matching none of the declared shapes makes validation, and hence
construction, fail with a configuration error naming that hyperparameter
and its expected shape set, while a value matching some declared shape is
accepted; construction succeeds exactly when every hyperparameter
validates and the nested operator is present. -/
theorem C3_schema_validation (key : String) (hs : HyperparamSchema)
    (v : PyValue) (hmem : (key, hs) ∈ smoteennSchemaEntries) :
    (validateValue key hs v = Except.ok v ↔
      ∃ s ∈ hs.shapes, matchesShape s v = true) ∧
    (validateValue key hs v = Except.error ⟨key, hs.shapes⟩ ↔
      ∀ s ∈ hs.shapes, matchesShape s v = false) ∧
    (∀ op hp, (∃ impl, SMOTEENN_construct op hp = ConstructResult.ok impl) ↔
      (validateAll hp = Except.ok hp ∧ op ≠ PyValue.none)) ∧
    (∀ hp e, validateAll hp = Except.error e →
      SMOTEENN_construct PyValue.none hp = ConstructResult.configError e ∧
      ∃ hs2, (e.key, hs2) ∈ smoteennSchemaEntries ∧ hs2.shapes = e.expected ∧
        ∀ s ∈ e.expected, matchesShape s (hpValue hp e.key) = false) := by
  refine ⟨validateValue_ok_iff key hs v, validateValue_error_iff key hs v,
          ?_, ?_⟩
  · intro op hp
    constructor
    · rintro ⟨impl, himpl⟩
      unfold SMOTEENN_construct at himpl
      cases hva : validateAll hp with
      | error e =>
        rw [hva] at himpl
        cases himpl
      | ok hp2 =>
        rw [hva] at himpl
        unfold SMOTEENNImpl.init at himpl
        by_cases hop : op = PyValue.none
        · rw [if_pos hop] at himpl
          cases himpl
        · exact ⟨validateAll_ok_eq hp hp2 hva ▸ rfl, hop⟩
    · rintro ⟨hva, hop⟩
      unfold SMOTEENN_construct
      rw [hva]
      unfold SMOTEENNImpl.init
      rw [if_neg hop]
      exact ⟨_, rfl⟩
  · intro hp e hva
    refine ⟨?_, validateAll_error_elim hp e hva⟩
    unfold SMOTEENN_construct
    rw [hva]

theorem C3_schema_validation_witness :
    (("sampling_strategy", samplingStrategySchema) ∈
      smoteennSchemaEntries) ∧
    ((validateValue "sampling_strategy" samplingStrategySchema
        (PyValue.bool true) = Except.ok (PyValue.bool true) ↔
      ∃ s ∈ samplingStrategySchema.shapes,
        matchesShape s (PyValue.bool true) = true) ∧
    (validateValue "sampling_strategy" samplingStrategySchema
        (PyValue.bool true) =
        Except.error ⟨"sampling_strategy", samplingStrategySchema.shapes⟩ ↔
      ∀ s ∈ samplingStrategySchema.shapes,
        matchesShape s (PyValue.bool true) = false) ∧
    (∀ op hp, (∃ impl, SMOTEENN_construct op hp = ConstructResult.ok impl) ↔
      (validateAll hp = Except.ok hp ∧ op ≠ PyValue.none)) ∧
    (∀ hp e, validateAll hp = Except.error e →
      SMOTEENN_construct PyValue.none hp = ConstructResult.configError e ∧
      ∃ hs2, (e.key, hs2) ∈ smoteennSchemaEntries ∧ hs2.shapes = e.expected ∧
        ∀ s ∈ e.expected, matchesShape s (hpValue hp e.key) = false)) :=
  ⟨by decide,
   C3_schema_validation "sampling_strategy" samplingStrategySchema
     (PyValue.bool true) (by decide)⟩

/-- Claim C9: the declared schemas of the smote and enn hyperparameters
(anyOf of an unconstrained Any shape and the literal None) accept every
possible value, so shape validation can never reject a smote or enn value
and the promise that out-of-shape values fail at construction is vacuous
for these two hyperparameters. -/
theorem C9_smote_enn_schema_vacuous (v : PyValue) :
    validateValue "smote" smoteSchema v = Except.ok v ∧
    validateValue "enn" ennSchema v = Except.ok v := by
  constructor
  · cases v <;> rfl
  · cases v <;> rfl

/-- One protected attribute of a fairness descriptor: the column it names
and its reference (privileged) group (spec sections 3 and 6). -/
structure ProtectedAttribute where
  feature : String
  reference_group : List PyValue
  deriving DecidableEq

/-- A row of an input data frame, as the assignment of a value to each
column name. -/
def Row : Type := String → PyValue

/-- Modelled from the spec: the per-column encoding of the
protected-attributes encoder of lale.lib.aif360, which is not in the
excerpt.  Per the spec, a protected-attribute value encodes to whether it
belongs to the reference (privileged) group of that attribute. -/
def encodeValue (reference_group : List PyValue) (v : PyValue) : Bool :=
  reference_group.contains v

/-- Modelled from the spec: the protected-attributes encoder invoked
without combine produces one encoded boolean column per protected
attribute, keeping each column name. -/
def encodeSeparate (pas : List ProtectedAttribute) (row : Row) :
    List (String × Bool) :=
  pas.map (fun pa => (pa.feature, encodeValue pa.reference_group
    (row pa.feature)))

/-- Modelled from the spec: the protected-attributes encoder invoked with
combine="and" produces a single output column holding, per row, the
logical AND of the per-attribute encodings. -/
def encodeAnd (pas : List ProtectedAttribute) (row : Row) :
    List (String × Bool) :=
  [(String.intercalate "_and_" (pas.map (fun pa => pa.feature)),
    pas.all (fun pa => encodeValue pa.reference_group (row pa.feature)))]

theorem encodeSeparate_foldr (pas : List ProtectedAttribute) (row : Row) :
    (encodeSeparate pas row).foldr (fun q b => q.2 && b) true =
      pas.all (fun pa => encodeValue pa.reference_group (row pa.feature)) := by
  induction pas with
  | nil => rfl
  | cons pa rest ih =>
    simp only [encodeSeparate, List.map_cons, List.foldr_cons, List.all_cons]
    simp only [encodeSeparate] at ih
    rw [ih]

/-- Claim C4: for every input data frame and every fairness descriptor with
multiple protected attributes, the encoder with combine="and" produces
exactly one output column, and on each row that column equals the logical
AND of the separately encoded protected-attribute columns. -/
theorem C4_combine_and (pas : List ProtectedAttribute) (frame : List Row)
    (h : 2 ≤ pas.length) :
    ∀ row ∈ frame,
      (encodeAnd pas row).length = 1 ∧
      ∀ p ∈ encodeAnd pas row,
        p.2 = (encodeSeparate pas row).foldr (fun q b => q.2 && b) true := by
  intro row _
  refine ⟨rfl, ?_⟩
  intro p hp
  rcases List.mem_singleton.mp hp with rfl
  exact (encodeSeparate_foldr pas row).symm

/-- A protected attribute for concrete evaluation: the personal_status
column with a one-element reference group. -/
def samplePA1 : ProtectedAttribute :=
  ⟨"personal_status", [PyValue.str "male single"]⟩

/-- A protected attribute for concrete evaluation: the age column with a
one-element reference group. -/
def samplePA2 : ProtectedAttribute := ⟨"age", [PyValue.int 30]⟩

/-- A concrete data-frame row for evaluating the encoder. -/
def sampleRow : Row := fun s =>
  if s = "personal_status" then PyValue.str "male single"
  else if s = "age" then PyValue.int 27
  else PyValue.none

theorem C4_combine_and_witness :
    2 ≤ ([samplePA1, samplePA2] : List ProtectedAttribute).length ∧
    (∀ row ∈ [sampleRow],
      (encodeAnd [samplePA1, samplePA2] row).length = 1 ∧
      ∀ p ∈ encodeAnd [samplePA1, samplePA2] row,
        p.2 = (encodeSeparate [samplePA1, samplePA2] row).foldr
          (fun q b => q.2 && b) true) :=
  ⟨by decide, C4_combine_and [samplePA1, samplePA2] [sampleRow] (by decide)⟩

/-- Number of true entries of a boolean mask. -/
def countTrue : List Bool → Nat
  | [] => 0
  | true :: ms => countTrue ms + 1
  | false :: ms => countTrue ms

/-- Number of false entries of a boolean mask. -/
def countFalse : List Bool → Nat
  | [] => 0
  | true :: ms => countFalse ms
  | false :: ms => countFalse ms + 1

/-- The rows of a list selected by the true positions of a mask. -/
def selectTrain {α : Type} : List Bool → List α → List α
  | [], _ => []
  | _ :: _, [] => []
  | true :: ms, x :: xs => x :: selectTrain ms xs
  | false :: ms, _ :: xs => selectTrain ms xs

/-- The rows of a list selected by the false positions of a mask. -/
def selectTest {α : Type} : List Bool → List α → List α
  | [], _ => []
  | _ :: _, [] => []
  | true :: ms, _ :: xs => selectTest ms xs
  | false :: ms, x :: xs => x :: selectTest ms xs

/-- The six return values of fair_stratified_train_test_split, in the order
the test suite destructures them (src/test/test_aif360.py lines 402-409). -/
structure SplitResult (ξ υ ζ : Type) where
  train_X : List ξ
  test_X : List ξ
  train_y : List υ
  test_y : List υ
  train_z : List ζ
  test_z : List ζ

/-- Modelled from the spec: fair_stratified_train_test_split of
lale.lib.aif360 is not in the excerpt.  Per the spec it splits the feature
matrix, the labels and every auxiliary array consistently into a train part
and a test part, the assignment of rows being chosen by a stratified
sampler abstracted here as a boolean mask over row positions (true sends
the row to the train part). -/
def fair_stratified_train_test_split {ξ υ ζ : Type} (mask : List Bool)
    (X : List ξ) (y : List υ) (z : List ζ) : SplitResult ξ υ ζ :=
  ⟨selectTrain mask X, selectTest mask X, selectTrain mask y,
   selectTest mask y, selectTrain mask z, selectTest mask z⟩

theorem countTrue_add_countFalse (mask : List Bool) :
    countTrue mask + countFalse mask = mask.length := by
  induction mask with
  | nil => rfl
  | cons b ms ih =>
    cases b
    · simp only [countTrue, countFalse, List.length_cons]
      omega
    · simp only [countTrue, countFalse, List.length_cons]
      omega

theorem selectTrain_length {α : Type} (mask : List Bool) (xs : List α)
    (h : mask.length = xs.length) :
    (selectTrain mask xs).length = countTrue mask := by
  induction mask generalizing xs with
  | nil => cases xs <;> rfl
  | cons b ms ih =>
    cases xs with
    | nil => exact absurd h (by simp)
    | cons x xs =>
      have h2 : ms.length = xs.length := by
        simp only [List.length_cons] at h
        omega
      cases b
      · simp only [selectTrain, countTrue]
        exact ih xs h2
      · simp only [selectTrain, countTrue, List.length_cons]
        rw [ih xs h2]

theorem selectTest_length {α : Type} (mask : List Bool) (xs : List α)
    (h : mask.length = xs.length) :
    (selectTest mask xs).length = countFalse mask := by
  induction mask generalizing xs with
  | nil => cases xs <;> rfl
  | cons b ms ih =>
    cases xs with
    | nil => exact absurd h (by simp)
    | cons x xs =>
      have h2 : ms.length = xs.length := by
        simp only [List.length_cons] at h
        omega
      cases b
      · simp only [selectTest, countFalse, List.length_cons]
        rw [ih xs h2]
      · simp only [selectTest, countFalse]
        exact ih xs h2

/-- Claim C5: fair_stratified_train_test_split partitions without overlap:
the train row count plus the test row count equals the original row count,
and within each part the feature matrix, label vector and auxiliary array
have the same length (src/test/test_aif360.py lines 397-414 and 747-761). -/
theorem C5_split_partition {ξ υ ζ : Type} (mask : List Bool) (X : List ξ)
    (y : List υ) (z : List ζ) (hm : mask.length = X.length)
    (hy : y.length = X.length) (hz : z.length = X.length) :
    (fair_stratified_train_test_split mask X y z).train_X.length +
      (fair_stratified_train_test_split mask X y z).test_X.length =
      X.length ∧
    (fair_stratified_train_test_split mask X y z).train_X.length =
      (fair_stratified_train_test_split mask X y z).train_y.length ∧
    (fair_stratified_train_test_split mask X y z).train_X.length =
      (fair_stratified_train_test_split mask X y z).train_z.length ∧
    (fair_stratified_train_test_split mask X y z).test_X.length =
      (fair_stratified_train_test_split mask X y z).test_y.length ∧
    (fair_stratified_train_test_split mask X y z).test_X.length =
      (fair_stratified_train_test_split mask X y z).test_z.length := by
  have hmy : mask.length = y.length := hm.trans hy.symm
  have hmz : mask.length = z.length := hm.trans hz.symm
  refine ⟨?_, ?_, ?_, ?_, ?_⟩
  · show (selectTrain mask X).length + (selectTest mask X).length = X.length
    rw [selectTrain_length mask X hm, selectTest_length mask X hm, ← hm]
    exact countTrue_add_countFalse mask
  · show (selectTrain mask X).length = (selectTrain mask y).length
    rw [selectTrain_length mask X hm, selectTrain_length mask y hmy]
  · show (selectTrain mask X).length = (selectTrain mask z).length
    rw [selectTrain_length mask X hm, selectTrain_length mask z hmz]
  · show (selectTest mask X).length = (selectTest mask y).length
    rw [selectTest_length mask X hm, selectTest_length mask y hmy]
  · show (selectTest mask X).length = (selectTest mask z).length
    rw [selectTest_length mask X hm, selectTest_length mask z hmz]

theorem C5_split_partition_witness :
    (([true, false, true] : List Bool).length =
      ([10, 20, 30] : List Nat).length) ∧
    ((fair_stratified_train_test_split [true, false, true]
        ([10, 20, 30] : List Nat) (["a", "b", "c"] : List String)
        ([5, 6, 7] : List Int)).train_X.length +
      (fair_stratified_train_test_split [true, false, true]
        ([10, 20, 30] : List Nat) (["a", "b", "c"] : List String)
        ([5, 6, 7] : List Int)).test_X.length =
      ([10, 20, 30] : List Nat).length ∧
    (fair_stratified_train_test_split [true, false, true]
        ([10, 20, 30] : List Nat) (["a", "b", "c"] : List String)
        ([5, 6, 7] : List Int)).train_X.length =
      (fair_stratified_train_test_split [true, false, true]
        ([10, 20, 30] : List Nat) (["a", "b", "c"] : List String)
        ([5, 6, 7] : List Int)).train_y.length ∧
    (fair_stratified_train_test_split [true, false, true]
        ([10, 20, 30] : List Nat) (["a", "b", "c"] : List String)
        ([5, 6, 7] : List Int)).train_X.length =
      (fair_stratified_train_test_split [true, false, true]
        ([10, 20, 30] : List Nat) (["a", "b", "c"] : List String)
        ([5, 6, 7] : List Int)).train_z.length ∧
    (fair_stratified_train_test_split [true, false, true]
        ([10, 20, 30] : List Nat) (["a", "b", "c"] : List String)
        ([5, 6, 7] : List Int)).test_X.length =
      (fair_stratified_train_test_split [true, false, true]
        ([10, 20, 30] : List Nat) (["a", "b", "c"] : List String)
        ([5, 6, 7] : List Int)).test_y.length ∧
    (fair_stratified_train_test_split [true, false, true]
        ([10, 20, 30] : List Nat) (["a", "b", "c"] : List String)
        ([5, 6, 7] : List Int)).test_X.length =
      (fair_stratified_train_test_split [true, false, true]
        ([10, 20, 30] : List Nat) (["a", "b", "c"] : List String)
        ([5, 6, 7] : List Int)).test_z.length) :=
  ⟨rfl,
   @C5_split_partition Nat String Int [true, false, true] [10, 20, 30]
     ["a", "b", "c"] [5, 6, 7] rfl rfl rfl⟩

/-- A scored dataset abstracted to what group-fairness metrics consume: one
entry per row, recording whether the row belongs to the privileged
(reference) group and whether the prediction for it is favorable. -/
def ScoredRows : Type := List (Bool × Bool)

/-- Number of rows in the privileged group. -/
def privCount (rows : ScoredRows) : Nat :=
  (rows.filter (fun r => r.1)).length

/-- Number of rows in the unprivileged group. -/
def unprivCount (rows : ScoredRows) : Nat :=
  (rows.filter (fun r => !r.1)).length

/-- Number of privileged rows with a favorable prediction. -/
def privFavCount (rows : ScoredRows) : Nat :=
  (rows.filter (fun r => r.1 && r.2)).length

/-- Number of unprivileged rows with a favorable prediction. -/
def unprivFavCount (rows : ScoredRows) : Nat :=
  (rows.filter (fun r => !r.1 && r.2)).length

/-- Favorable-outcome rate of the privileged group. -/
def privRate (rows : ScoredRows) : ℚ :=
  (privFavCount rows : ℚ) / (privCount rows : ℚ)

/-- Favorable-outcome rate of the unprivileged group. -/
def unprivRate (rows : ScoredRows) : ℚ :=
  (unprivFavCount rows : ℚ) / (unprivCount rows : ℚ)

/-- A scorer result: the scalar metric together with the warnings logged
while computing it. -/
structure ScorerOutput where
  score : ℚ
  warnings : List String

/-- Modelled from the spec: the disparate_impact scorer of lale.lib.aif360
is not in the excerpt.  Per the spec glossary it returns the ratio of
favorable-outcome rates between the unprivileged and privileged groups
(1.0 denoting parity), and per spec section 7, when a denominator of the
metric is undefined (an empty group, or zero favorable predictions in the
privileged group) it logs a warning describing the metric as ill-defined
and returns the sentinel value zero instead of failing. -/
def disparate_impact (rows : ScoredRows) : ScorerOutput :=
  if privCount rows = 0 ∨ unprivCount rows = 0 ∨ privFavCount rows = 0 then
    ⟨0, ["disparate_impact is ill-defined"]⟩
  else
    ⟨unprivRate rows / privRate rows, []⟩

/-- Claim C6: whenever a denominator of the disparate-impact metric is
undefined (an empty group or a privileged group with zero favorable
predictions), the scorer logs a warning describing the metric as
ill-defined and returns the sentinel value zero instead of raising. -/
theorem C6_ill_defined_sentinel (rows : ScoredRows)
    (h : privCount rows = 0 ∨ unprivCount rows = 0 ∨ privFavCount rows = 0) :
    (disparate_impact rows).score = 0 ∧
    ∃ w ∈ (disparate_impact rows).warnings, w = "disparate_impact is ill-defined" := by
  unfold disparate_impact
  rw [if_pos h]
  exact ⟨rfl, "disparate_impact is ill-defined", List.mem_singleton.mpr rfl, rfl⟩

theorem C6_ill_defined_sentinel_witness :
    (privCount [(true, false), (false, true)] = 0 ∨
     unprivCount [(true, false), (false, true)] = 0 ∨
     privFavCount [(true, false), (false, true)] = 0) ∧
    ((disparate_impact [(true, false), (false, true)]).score = 0 ∧
     ∃ w ∈ (disparate_impact [(true, false), (false, true)]).warnings,
       w = "disparate_impact is ill-defined") :=
  ⟨by decide,
   C6_ill_defined_sentinel [(true, false), (false, true)] (by decide)⟩

/-- The acceptance predicate of test_dataset_adult_pd_cat via
_attempt_dataset (src/test/test_aif360.py lines 83-95): the unprocessed
adult frame must have shape (48842, 14) and its measured disparate impact
must equal 0.227 to 3 decimal places (assertAlmostEqual with places=3,
idealized over exact rationals as a difference of at most 1/2000). -/
def adultCatTestPasses (shape : Nat × Nat) (di : ℚ) : Prop :=
  shape = (48842, 14) ∧ |di - 227/1000| ≤ 1/2000

/-- Claim C8: every disparate-impact score is nonnegative and the value 1
denotes parity of the two group rates; the adult fixture of the test suite
pins the unprocessed adult dataset to shape (48842, 14) with a disparate
impact of 0.227, and any measurement it accepts is within the claimed
tolerance of 0.001. -/
theorem C8_disparate_impact_range (rows : ScoredRows) (shape : Nat × Nat)
    (di : ℚ) :
    0 ≤ (disparate_impact rows).score ∧
    (¬(privCount rows = 0 ∨ unprivCount rows = 0 ∨ privFavCount rows = 0) →
      unprivRate rows = privRate rows →
      (disparate_impact rows).score = 1) ∧
    (adultCatTestPasses shape di →
      shape = (48842, 14) ∧ |di - 227/1000| ≤ 1/1000) := by
  refine ⟨?_, ?_, ?_⟩
  · unfold disparate_impact
    by_cases h : privCount rows = 0 ∨ unprivCount rows = 0 ∨
        privFavCount rows = 0
    · rw [if_pos h]
    · rw [if_neg h]
      show (0 : ℚ) ≤ unprivRate rows / privRate rows
      unfold unprivRate privRate
      positivity
  · intro h heq
    unfold disparate_impact
    rw [if_neg h]
    show unprivRate rows / privRate rows = 1
    rw [heq]
    apply div_self
    push_neg at h
    unfold privRate
    apply div_ne_zero
    · exact Nat.cast_ne_zero.mpr h.2.2
    · exact Nat.cast_ne_zero.mpr h.1
  · intro hp
    exact ⟨hp.1, le_trans hp.2 (by norm_num)⟩

theorem C8_disparate_impact_range_witness :
    0 ≤ (disparate_impact [(true, true), (false, true)]).score ∧
    (disparate_impact [(true, true), (false, true)]).score = 1 ∧
    ((48842, 14) : Nat × Nat) = (48842, 14) ∧
    |(227/1000 : ℚ) - 227/1000| ≤ 1/1000 := by
  have h := C8_disparate_impact_range [(true, true), (false, true)]
    (48842, 14) (227/1000)
  have hrate : unprivRate [(true, true), (false, true)] =
      privRate [(true, true), (false, true)] := by
    unfold unprivRate privRate unprivFavCount privFavCount unprivCount
      privCount
    norm_num
  refine ⟨h.1, h.2.1 (by decide) hrate, ?_, ?_⟩
  · exact (h.2.2 ⟨rfl, by norm_num⟩).1
  · exact (h.2.2 ⟨rfl, by norm_num⟩).2

/-- The acceptance predicate of test_disparate_impact_remover_np_num
(src/test/test_aif360.py lines 527-541): the baseline disparate impact
must lie strictly between 0.6 and 1.0 and the mitigated disparate impact
strictly between 0.8 and 1.0. -/
def diRemoverNpNumCheck (impact_orig impact_remi : ℚ) : Prop :=
  ((6 : ℚ)/10 < impact_orig ∧ impact_orig < 1) ∧
  ((8 : ℚ)/10 < impact_remi ∧ impact_remi < 1)

/-- The mean of a list of rational scores, as pd.Series.mean over the
per-split disparate impacts. -/
def listMean (l : List ℚ) : ℚ := l.sum / (l.length : ℚ)

/-- The acceptance predicate of _attempt_remi_creditg_pd_cat
(src/test/test_aif360.py lines 849-869) at the bounds used by
test_disparate_impact_remover_pd_cat (line 891): the mean disparate impact
over the cross-validation splits lies within the documented scenario
interval. -/
def remiCreditgPdCatCheck (min_di max_di : ℚ) (diList : List ℚ) : Prop :=
  min_di ≤ listMean diList ∧ listMean diList ≤ max_di

/-- Claim C7 counterexample: the score pair (baseline 0.95, mitigated 0.85)
satisfies every bound the code asserts for the credit scenario, yet the
mitigated disparate impact is strictly further from parity than the
baseline, so the code does not guarantee that mitigation strictly improves
the score: the claimed strict improvement fails at this input. -/
theorem C7_strict_improvement_counterexample :
    diRemoverNpNumCheck (95/100) (85/100) ∧
    ¬ ((95/100 : ℚ) < 85/100) := by
  constructor
  · exact ⟨⟨by norm_num, by norm_num⟩, by norm_num, by norm_num⟩
  · norm_num

/-- Claim C7 as amended: in each mitigation scenario the code asserts only
that the scores lie within the documented per-scenario bounds: on the
credit dataset the baseline in (0.6, 1.0), the mitigated score in
(0.8, 1.0), and the cross-validated mean within the scenario interval;
these bounds do not entail a strict per-scenario improvement, since pairs
within the bounds exist whose mitigated score is worse than the baseline. -/
theorem C7_bounds_only (impact_orig impact_remi : ℚ) (diList : List ℚ)
    (h1 : diRemoverNpNumCheck impact_orig impact_remi)
    (h2 : remiCreditgPdCatCheck (72/100) (92/100) diList) :
    ((6 : ℚ)/10 < impact_orig ∧ impact_orig < 1 ∧
     (8 : ℚ)/10 < impact_remi ∧ impact_remi < 1 ∧
     (72 : ℚ)/100 ≤ listMean diList ∧ listMean diList ≤ (92 : ℚ)/100) ∧
    ∃ io ir, diRemoverNpNumCheck io ir ∧ ir < io := by
  refine ⟨⟨h1.1.1, h1.1.2, h1.2.1, h1.2.2, h2.1, h2.2⟩, ?_⟩
  refine ⟨95/100, 85/100, ⟨⟨by norm_num, by norm_num⟩, by norm_num,
    by norm_num⟩, by norm_num⟩

theorem C7_bounds_only_witness :
    diRemoverNpNumCheck (7/10) (9/10) ∧
    remiCreditgPdCatCheck (72/100) (92/100) [4/5, 4/5, 4/5] ∧
    (((6 : ℚ)/10 < 7/10 ∧ (7 : ℚ)/10 < 1 ∧
      (8 : ℚ)/10 < 9/10 ∧ (9 : ℚ)/10 < 1 ∧
      (72 : ℚ)/100 ≤ listMean [4/5, 4/5, 4/5] ∧
      listMean [4/5, 4/5, 4/5] ≤ (92 : ℚ)/100) ∧
     ∃ io ir, diRemoverNpNumCheck io ir ∧ ir < io) := by
  have hA : diRemoverNpNumCheck (7/10) (9/10) :=
    ⟨⟨by norm_num, by norm_num⟩, by norm_num, by norm_num⟩
  have hB : remiCreditgPdCatCheck (72/100) (92/100) [4/5, 4/5, 4/5] := by
    constructor <;>
      norm_num [listMean, List.sum_cons, List.sum_nil]
  exact ⟨hA, hB, C7_bounds_only (7/10) (9/10) [4/5, 4/5, 4/5] hA hB⟩
